import Mathlib

/-!
Verification of `src/visualize_deps.py` (depdiscover dependency-graph
visualizer).  The script reads a JSON document describing a project's
dependencies, builds a graphviz `Digraph` (root node plus one node and
one root-to-node edge per retained dependency, colored by security
status), saves the DOT source, and renders an image.

The embedding below mirrors the source: JSON dictionaries with optional
fields become structures with `Option` fields and `.getD` defaults,
the single build loop becomes a `List.foldl`, the `graphviz.Digraph`
object becomes a record of node statements, edge statements and the
layout-engine attribute, and the filesystem / subprocess outcomes
(missing input file, JSON parse failure, render success or failure)
become explicit parameters so that every control path of `visualize`
is a branch of a total function.
-/

namespace VisualizeDeps

/-- One entry of a dependency's `cves` list: a JSON object whose `id`
field may be absent (`dep["cves"][0].get("id", "")`). -/
structure Finding where
  id : Option String
deriving Repr, DecidableEq

/-- One entry of the input `dependencies` list.  `name`, `type` and
`version` are optional strings (the source reads them with
`dep.get(key, default)`); `cves` is the ordered findings list. -/
structure Dependency where
  name : Option String
  type : Option String
  version : Option String
  cves : List Finding
deriving Repr, DecidableEq

/-- The whole parsed input document: `project_name` optional,
`dependencies` an ordered list. -/
structure ProjectDocument where
  project_name : Option String
  dependencies : List Dependency
deriving Repr, DecidableEq

/-- `get_security_color` from the source, lines 12-20: consult only the
first element of `cves`; an absent `id` defaults to the empty string. -/
def get_security_color (dep : Dependency) : String :=
  match dep.cves with
  | [] => "lightgrey"
  | first :: _ =>
    let first_id := first.id.getD ""
    if first_id == "SAFE" then "#90EE90"
    else if first_id == "NOT-CHECKED" then "lightgrey"
    else if first_id == "CHECK-ERROR" then "#FFE4B5"
    else "#FF6347"

/-- `dep.get("name", "unknown")` (source line 55). -/
def depName (dep : Dependency) : String := dep.name.getD "unknown"

/-- `dep.get("type", "unknown")` (source line 56). -/
def depType (dep : Dependency) : String := dep.type.getD "unknown"

/-- `dep.get("version", "?")` (source line 57). -/
def depVersion (dep : Dependency) : String := dep.version.getD "?"

/-- `data.get("project_name", "Project")` (source line 45). -/
def projectName (data : ProjectDocument) : String :=
  data.project_name.getD "Project"

/-- A node statement of the DOT source: identity, label, fill color
(display attributes such as shape are fixed per call site in the
source and carry no information the claims mention). -/
structure NodeStmt where
  name : String
  label : String
  fillcolor : String
deriving Repr, DecidableEq

/-- An edge statement of the DOT source: `dot.edge(src, dst)`. -/
structure EdgeStmt where
  src : String
  dst : String
deriving Repr, DecidableEq

/-- The serialized graph description: exactly what `dot.save` writes to
`dependency_graph.gv` — the node and edge statements, in insertion
order.  The layout engine is *not* part of the saved source. -/
structure GraphDescription where
  nodes : List NodeStmt
  edges : List EdgeStmt
deriving Repr, DecidableEq

/-- The in-memory `graphviz.Digraph` object: its body (nodes and edges)
plus its `engine` attribute (defaulting to `"dot"` when the object is
constructed, and mutable — source line 91 assigns `dot.engine`). -/
structure Digraph where
  nodes : List NodeStmt
  edges : List EdgeStmt
  engine : String
deriving Repr, DecidableEq

/-- The part of a `Digraph` that `dot.save` serializes. -/
def Digraph.description (g : Digraph) : GraphDescription :=
  { nodes := g.nodes, edges := g.edges }

/-- The root node added before the loop (source line 46):
`dot.node('ROOT', project_name, shape='doubleoctagon', fillcolor='lightblue')`. -/
def rootNode (project_name : String) : NodeStmt :=
  { name := "ROOT", label := project_name, fillcolor := "lightblue" }

/-- The node statement the loop adds for a retained dependency
(source lines 64-68): label `f"{name}\n{version}\n({dep_type})"`,
fill color from `get_security_color`. -/
def depNode (dep : Dependency) : NodeStmt :=
  { name := depName dep
    label := depName dep ++ "\n" ++ depVersion dep ++ "\n(" ++ depType dep ++ ")"
    fillcolor := get_security_color dep }

/-- The edge statement the loop adds for a retained dependency
(source line 69): `dot.edge('ROOT', name)`. -/
def depEdge (dep : Dependency) : EdgeStmt :=
  { src := "ROOT", dst := depName dep }

/-- One iteration of the build loop (source lines 54-70), acting on the
state `(dot, count, skipped)`: skip a system library (when configured),
or add its node and edge and count it. -/
def buildStep (skipSystemLibs : Bool) (acc : Digraph × Nat × Nat)
    (dep : Dependency) : Digraph × Nat × Nat :=
  let dot := acc.1
  let count := acc.2.1
  let skipped := acc.2.2
  if skipSystemLibs && depType dep == "system" then
    (dot, count, skipped + 1)
  else
    ({ dot with
        nodes := dot.nodes ++ [depNode dep]
        edges := dot.edges ++ [depEdge dep] },
     count + 1, skipped)

/-- The `Digraph` as initialized before the loop (source lines 40-46):
the root node only, engine at the graphviz library default `"dot"`. -/
def initialGraph (project_name : String) : Digraph :=
  { nodes := [rootNode project_name], edges := [], engine := "dot" }

/-- The whole build pass (source lines 40-70): the fresh `Digraph`, then
the loop over `dependencies` with both counters starting at 0. -/
def buildAll (skipSystemLibs : Bool) (project_name : String)
    (deps : List Dependency) : Digraph × Nat × Nat :=
  deps.foldl (buildStep skipSystemLibs) (initialGraph project_name, 0, 0)

/-- The engine switch before rendering (source lines 89-91): if more
than 100 nodes were retained and the configured `ENGINE` is `'dot'`,
mutate `dot.engine` to `'sfdp'`; otherwise leave the object alone. -/
def engineForRender (count : Nat) (engineCfg : String) (dot : Digraph) : Digraph :=
  if count > 100 && engineCfg == "dot" then { dot with engine := "sfdp" } else dot

/-- Outcome of the load phase (source lines 25-37): the input path may
not exist, `json.load` may fail, or a document is obtained. -/
inductive LoadResult where
  | fileNotFound
  | parseError (msg : String)
  | ok (data : ProjectDocument)
deriving Repr, DecidableEq

/-- Outcome of `dot.render` (source lines 93-104): success, the
graphviz executable missing, or any other failure. -/
inductive RenderOutcome where
  | success
  | executableNotFound
  | otherFailure (msg : String)
deriving Repr, DecidableEq

/-- The console reports `visualize` can emit on its terminal paths. -/
inductive Report where
  | inputNotFound
  | jsonError (msg : String)
  | rendered (path : String)
  | engineNotFound (savedPath : String)
  | renderError (msg : String)
deriving Repr, DecidableEq

/-- Observable result of one run of `visualize`: which files were
written (and with what content), what was reported, the counters, and
whether the call returned without an uncaught exception. -/
structure RunResult where
  savedSource : Option GraphDescription
  renderedWith : Option (GraphDescription × String)
  imageWritten : Bool
  report : List Report
  count : Nat
  skipped : Nat
  completedNormally : Bool
deriving Repr, DecidableEq

/-- `visualize` from the source (lines 22-104), with the environment
made explicit: the load outcome and the render outcome are parameters.
Missing file and parse failure return before any graph is built; the
build and save always precede the render attempt; both render failure
modes are caught (`except` clauses, lines 98-104), so every path
returns normally. -/
def visualize (skipSystemLibs : Bool) (outputFormat : String) (engineCfg : String)
    (load : LoadResult) (renderOutcome : RenderOutcome) : RunResult :=
  match load with
  | .fileNotFound =>
      { savedSource := none, renderedWith := none, imageWritten := false
        report := [.inputNotFound], count := 0, skipped := 0
        completedNormally := true }
  | .parseError msg =>
      { savedSource := none, renderedWith := none, imageWritten := false
        report := [.jsonError msg], count := 0, skipped := 0
        completedNormally := true }
  | .ok data =>
      let st := buildAll skipSystemLibs (projectName data) data.dependencies
      let dot := st.1
      let count := st.2.1
      let skipped := st.2.2
      let saved := dot.description
      let dotR := engineForRender count engineCfg dot
      match renderOutcome with
      | .success =>
          { savedSource := some saved
            renderedWith := some (dotR.description, dotR.engine)
            imageWritten := true
            report := [.rendered ("dependency_graph." ++ outputFormat)]
            count := count, skipped := skipped, completedNormally := true }
      | .executableNotFound =>
          { savedSource := some saved
            renderedWith := some (dotR.description, dotR.engine)
            imageWritten := false
            report := [.engineNotFound "dependency_graph.gv"]
            count := count, skipped := skipped, completedNormally := true }
      | .otherFailure msg =>
          { savedSource := some saved
            renderedWith := some (dotR.description, dotR.engine)
            imageWritten := false
            report := [.renderError msg]
            count := count, skipped := skipped, completedNormally := true }

/-- The dependencies the loop retains (does not `continue` past). -/
def retainedDeps (skipSystemLibs : Bool) (deps : List Dependency) : List Dependency :=
  deps.filter (fun dep => !(skipSystemLibs && depType dep == "system"))

/-- The dependencies the loop skips. -/
def skippedDeps (skipSystemLibs : Bool) (deps : List Dependency) : List Dependency :=
  deps.filter (fun dep => skipSystemLibs && depType dep == "system")

/-! ## Helper lemmas -/

/-- Closed form of the build loop: from any starting state, the fold
appends one node and one edge per retained dependency, adds the number
of retained dependencies to `count` and the number of skipped ones to
`skipped`, and never touches the engine attribute. -/
theorem foldl_buildStep (skip : Bool) (deps : List Dependency) :
    ∀ (g : Digraph) (c s : Nat),
      deps.foldl (buildStep skip) (g, c, s) =
        ({ nodes := g.nodes ++ (retainedDeps skip deps).map depNode
           edges := g.edges ++ (retainedDeps skip deps).map depEdge
           engine := g.engine },
         c + (retainedDeps skip deps).length,
         s + (skippedDeps skip deps).length) := by
  induction deps with
  | nil => intro g c s; simp [retainedDeps, skippedDeps]
  | cons dep rest ih =>
    intro g c s
    rw [List.foldl_cons]
    by_cases h : (skip && depType dep == "system") = true
    · have hstep : buildStep skip (g, c, s) dep = (g, c, s + 1) := by
        simp [buildStep, h]
      rw [hstep, ih]
      simp only [retainedDeps, skippedDeps, List.filter_cons, h]
      simp
      omega
    · have hstep : buildStep skip (g, c, s) dep =
          ({ g with nodes := g.nodes ++ [depNode dep]
                    edges := g.edges ++ [depEdge dep] }, c + 1, s) := by
        simp [buildStep, h]
      rw [hstep, ih]
      simp only [retainedDeps, skippedDeps, List.filter_cons, h]
      simp
      omega

/-- Every dependency is either retained or skipped, so the two filtered
lists partition the input. -/
theorem retained_add_skipped_length (skip : Bool) (deps : List Dependency) :
    (retainedDeps skip deps).length + (skippedDeps skip deps).length = deps.length := by
  induction deps with
  | nil => rfl
  | cons dep rest ih =>
    by_cases h : (skip && depType dep == "system") = true <;>
      simp only [retainedDeps, skippedDeps, List.filter_cons, h] at ih ⊢ <;>
      simp at ih ⊢ <;> omega

/-- The engine switch changes only the `engine` attribute: the
serialized description (nodes and edges) is untouched. -/
theorem engineForRender_description (count : Nat) (cfg : String) (dot : Digraph) :
    (engineForRender count cfg dot).description = dot.description := by
  unfold engineForRender
  split <;> rfl

/-- Example dependency: a system library (Scenario B of the spec). -/
def sysDep : Dependency :=
  { name := some "libc", type := some "system", version := none, cves := [] }

/-- Example dependency: a safe library (Scenario C of the spec). -/
def libDep : Dependency :=
  { name := some "left-pad", type := some "library", version := some "1.0.0"
    cves := [{ id := some "SAFE" }] }

/-- Example dependency with every optional field absent. -/
def bareDep : Dependency :=
  { name := none, type := none, version := none, cves := [] }

/-- Example document with no project name and no dependencies. -/
def emptyDoc : ProjectDocument := { project_name := none, dependencies := [] }

/-- 101 retained dependencies, enough to cross the engine threshold. -/
def bigDeps : List Dependency := List.replicate 101 libDep

/-- Example dependency sharing `libDep`'s first finding but differing
in every other field and in later findings. -/
def otherDep : Dependency :=
  { name := some "other", type := some "system", version := none
    cves := [{ id := some "SAFE" }, { id := some "CVE-2020-0001" }] }

/-! ## Claim theorems -/

/-- Claim C1: `get_security_color` returns lightgrey (neutral/unknown)
for an empty `cves` list; for a non-empty list it returns the safe
color for first id `"SAFE"`, lightgrey again (identical to the empty
case) for `"NOT-CHECKED"`, the warning color for `"CHECK-ERROR"`, and
the danger color for any other first-id value. -/
theorem C1_color_classification (dep : Dependency) :
    (dep.cves = [] → get_security_color dep = "lightgrey") ∧
    (∀ f rest, dep.cves = f :: rest →
      ((f.id.getD "" = "SAFE" → get_security_color dep = "#90EE90") ∧
       (f.id.getD "" = "NOT-CHECKED" → get_security_color dep = "lightgrey") ∧
       (f.id.getD "" = "CHECK-ERROR" → get_security_color dep = "#FFE4B5") ∧
       (f.id.getD "" ≠ "SAFE" → f.id.getD "" ≠ "NOT-CHECKED" →
        f.id.getD "" ≠ "CHECK-ERROR" → get_security_color dep = "#FF6347"))) := by
  constructor
  · intro h
    simp [get_security_color, h]
  · intro f rest h
    refine ⟨?_, ?_, ?_, ?_⟩
    · intro hid; simp [get_security_color, h, hid]
    · intro hid; simp [get_security_color, h, hid]
    · intro hid; simp [get_security_color, h, hid]
    · intro h1 h2 h3; simp [get_security_color, h, h1, h2, h3]

/-- Witness for C1: concrete evaluations of every branch. -/
theorem C1_color_classification_witness :
    get_security_color bareDep = "lightgrey" ∧
    get_security_color libDep = "#90EE90" ∧
    get_security_color { bareDep with cves := [{ id := some "NOT-CHECKED" }] } = "lightgrey" ∧
    get_security_color { bareDep with cves := [{ id := some "CHECK-ERROR" }] } = "#FFE4B5" ∧
    get_security_color { bareDep with cves := [{ id := some "CVE-2023-1234" }] } = "#FF6347" := by
  refine ⟨(C1_color_classification bareDep).1 rfl,
    ((C1_color_classification libDep).2 { id := some "SAFE" } [] rfl).1 rfl,
    ((C1_color_classification _).2 { id := some "NOT-CHECKED" } [] rfl).2.1 rfl,
    ((C1_color_classification _).2 { id := some "CHECK-ERROR" } [] rfl).2.2.1 rfl,
    ((C1_color_classification _).2 { id := some "CVE-2023-1234" } [] rfl).2.2.2
      (by decide) (by decide) (by decide)⟩

/-- Claim C2: after the build pass, `retainedCount + skippedCount`
equals the number of dependencies; each loop iteration increments
exactly one of the two counters — `skipped` when `skipSystemLibs` holds
and the dependency's type is `"system"`, `count` otherwise. -/
theorem C2_counters (skip : Bool) (pname : String) (deps : List Dependency) :
    ((buildAll skip pname deps).2.1 + (buildAll skip pname deps).2.2 = deps.length) ∧
    (∀ (acc : Digraph × Nat × Nat) (dep : Dependency),
      (skip = true ∧ depType dep = "system" →
        (buildStep skip acc dep).2.1 = acc.2.1 ∧
        (buildStep skip acc dep).2.2 = acc.2.2 + 1) ∧
      (¬(skip = true ∧ depType dep = "system") →
        (buildStep skip acc dep).2.1 = acc.2.1 + 1 ∧
        (buildStep skip acc dep).2.2 = acc.2.2)) := by
  constructor
  · rw [buildAll, foldl_buildStep]
    simpa using retained_add_skipped_length skip deps
  · intro acc dep
    constructor
    · rintro ⟨hs, ht⟩
      have h : (skip && depType dep == "system") = true := by simp [hs, ht]
      simp [buildStep, h]
    · intro hn
      have h : (skip && depType dep == "system") = false := by
        cases hb : (skip && depType dep == "system") with
        | false => rfl
        | true => exact absurd (by simpa using hb) hn
      simp [buildStep, h]

/-- Witness for C2: Scenario B plus one retained library. -/
theorem C2_counters_witness :
    ((buildAll true "Project" [sysDep, libDep]).2.1 +
      (buildAll true "Project" [sysDep, libDep]).2.2 = 2) ∧
    ((buildStep true (initialGraph "Project", 0, 0) sysDep).2.1 = 0 ∧
      (buildStep true (initialGraph "Project", 0, 0) sysDep).2.2 = 0 + 1) ∧
    ((buildStep true (initialGraph "Project", 0, 0) libDep).2.1 = 0 + 1 ∧
      (buildStep true (initialGraph "Project", 0, 0) libDep).2.2 = 0) := by
  refine ⟨(C2_counters true "Project" [sysDep, libDep]).1, ?_, ?_⟩
  · exact ((C2_counters true "Project" []).2 (initialGraph "Project", 0, 0) sysDep).1
      ⟨rfl, by decide⟩
  · exact ((C2_counters true "Project" []).2 (initialGraph "Project", 0, 0) libDep).2
      (by decide)

/-- Claim C3: the built graph contains exactly `retainedCount` non-root
node statements (the root statement is first) and exactly
`retainedCount` edge statements, every one originating at `"ROOT"`. -/
theorem C3_graph_shape (skip : Bool) (pname : String) (deps : List Dependency) :
    ((buildAll skip pname deps).1.nodes.length = (buildAll skip pname deps).2.1 + 1) ∧
    ((buildAll skip pname deps).1.nodes.head? = some (rootNode pname)) ∧
    ((buildAll skip pname deps).1.edges.length = (buildAll skip pname deps).2.1) ∧
    (∀ e ∈ (buildAll skip pname deps).1.edges, e.src = "ROOT") := by
  rw [buildAll, foldl_buildStep]
  refine ⟨?_, ?_, ?_, ?_⟩
  · simp [initialGraph]
  · simp [initialGraph]
  · simp [initialGraph]
  · intro e he
    simp only [initialGraph, List.nil_append, List.mem_map] at he
    obtain ⟨dep, _, rfl⟩ := he
    rfl

/-- Witness for C3: one retained dependency, its edge from the root. -/
theorem C3_graph_shape_witness :
    ((buildAll true "Project" [libDep]).1.nodes.length =
      (buildAll true "Project" [libDep]).2.1 + 1) ∧
    ((buildAll true "Project" [libDep]).1.edges.length =
      (buildAll true "Project" [libDep]).2.1) ∧
    (depEdge libDep).src = "ROOT" := by
  have h := C3_graph_shape true "Project" [libDep]
  exact ⟨h.1, h.2.2.1, h.2.2.2 (depEdge libDep) (by decide)⟩

/-- Claim C4: the color depends only on the first finding — any two
dependencies whose `cves` lists share the same first element get the
same color, whatever their other fields or later findings. -/
theorem C4_first_finding_only (d1 d2 : Dependency) (f : Finding)
    (t1 t2 : List Finding) (h1 : d1.cves = f :: t1) (h2 : d2.cves = f :: t2) :
    get_security_color d1 = get_security_color d2 := by
  simp [get_security_color, h1, h2]

/-- Witness for C4: same first finding, different tails and fields. -/
theorem C4_first_finding_only_witness :
    get_security_color libDep = get_security_color otherDep := by
  exact C4_first_finding_only _ _ { id := some "SAFE" }
    [] [{ id := some "CVE-2020-0001" }] rfl rfl

/-- Claim C5: missing optional fields default during build to
`"unknown"` (name), `"unknown"` (type), `"?"` (version), and the
non-empty placeholder `"Project"` (project name), the latter used as
the root node's label. -/
theorem C5_defaults (dep : Dependency) (data : ProjectDocument)
    (hn : dep.name = none) (ht : dep.type = none) (hv : dep.version = none)
    (hp : data.project_name = none) :
    depName dep = "unknown" ∧ depType dep = "unknown" ∧ depVersion dep = "?" ∧
    projectName data = "Project" ∧ projectName data ≠ "" ∧
    (rootNode (projectName data)).label = projectName data := by
  simp [depName, depType, depVersion, projectName, rootNode, hn, ht, hv, hp]

/-- Witness for C5: a dependency and a document with no optional
fields. -/
theorem C5_defaults_witness :
    depName bareDep = "unknown" ∧ depType bareDep = "unknown" ∧
    depVersion bareDep = "?" ∧ projectName emptyDoc = "Project" ∧
    projectName emptyDoc ≠ "" ∧
    (rootNode (projectName emptyDoc)).label = projectName emptyDoc :=
  C5_defaults bareDep emptyDoc rfl rfl rfl rfl

/-- Claim C6: before rendering, the engine attribute (initially the
default `"dot"`) is switched to `"sfdp"` exactly when more than 100
nodes were retained and the configured engine is `"dot"`; with 100 or
fewer retained nodes, or a non-default configured engine, the graph
object is left unchanged. -/
theorem C6_engine_switch (skip : Bool) (pname : String) (deps : List Dependency)
    (cfg : String) :
    ((buildAll skip pname deps).1.engine = "dot") ∧
    (100 < (buildAll skip pname deps).2.1 ∧ cfg = "dot" →
      (engineForRender (buildAll skip pname deps).2.1 cfg
        (buildAll skip pname deps).1).engine = "sfdp") ∧
    ((buildAll skip pname deps).2.1 ≤ 100 ∨ cfg ≠ "dot" →
      engineForRender (buildAll skip pname deps).2.1 cfg
        (buildAll skip pname deps).1 = (buildAll skip pname deps).1) := by
  refine ⟨?_, ?_, ?_⟩
  · rw [buildAll, foldl_buildStep]
    simp [initialGraph]
  · rintro ⟨hc, hcfg⟩
    simp [engineForRender, hc, hcfg]
  · rintro (hc | hcfg)
    · simp [engineForRender, Nat.not_lt.mpr hc]
    · simp [engineForRender, hcfg]

/-- Witness for C6: no switch for an empty document; switch to
`"sfdp"` above the threshold. -/
theorem C6_engine_switch_witness :
    (engineForRender (buildAll true "Project" []).2.1 "dot"
      (buildAll true "Project" []).1 = (buildAll true "Project" []).1) ∧
    (engineForRender (buildAll true "Project" bigDeps).2.1 "dot"
      (buildAll true "Project" bigDeps).1).engine = "sfdp" := by
  refine ⟨(C6_engine_switch true "Project" [] "dot").2.2 (Or.inl (by decide)), ?_⟩
  exact (C6_engine_switch true "Project" bigDeps "dot").2.1 ⟨by decide, rfl⟩

/-- Claim C7: when the input path does not exist, `visualize` reports
the input-not-found condition and returns before any parsing or graph
construction: no `.gv` source, no image, zero counters — whatever the
renderer would have done. -/
theorem C7_input_not_found (skip : Bool) (fmt cfg : String) (ro : RenderOutcome) :
    visualize skip fmt cfg .fileNotFound ro =
      { savedSource := none, renderedWith := none, imageWritten := false
        report := [.inputNotFound], count := 0, skipped := 0
        completedNormally := true } := rfl

/-- Claim C8: when rendering fails — executable missing or any other
failure — the `.gv` artifact written by the save step is preserved, no
image is produced, the failure is reported, and `visualize` still
returns normally (the exception is caught, so the process exits 0). -/
theorem C8_render_failure (skip : Bool) (fmt cfg : String)
    (data : ProjectDocument) (ro : RenderOutcome) (hro : ro ≠ .success) :
    ((visualize skip fmt cfg (.ok data) ro).savedSource =
      some (buildAll skip (projectName data) data.dependencies).1.description) ∧
    ((visualize skip fmt cfg (.ok data) ro).imageWritten = false) ∧
    ((visualize skip fmt cfg (.ok data) ro).completedNormally = true) ∧
    ((visualize skip fmt cfg (.ok data) ro).report =
        [.engineNotFound "dependency_graph.gv"] ∨
      ∃ msg, (visualize skip fmt cfg (.ok data) ro).report = [.renderError msg]) := by
  cases ro with
  | success => exact absurd rfl hro
  | executableNotFound => exact ⟨rfl, rfl, rfl, Or.inl rfl⟩
  | otherFailure msg => exact ⟨rfl, rfl, rfl, Or.inr ⟨msg, rfl⟩⟩

/-- Witness for C8: the executable-not-found outcome on the empty
document. -/
theorem C8_render_failure_witness :
    ((visualize true "png" "dot" (.ok emptyDoc) .executableNotFound).savedSource =
      some (buildAll true (projectName emptyDoc) emptyDoc.dependencies).1.description) ∧
    ((visualize true "png" "dot" (.ok emptyDoc) .executableNotFound).imageWritten = false) ∧
    ((visualize true "png" "dot" (.ok emptyDoc) .executableNotFound).completedNormally = true) ∧
    ((visualize true "png" "dot" (.ok emptyDoc) .executableNotFound).report =
        [.engineNotFound "dependency_graph.gv"] ∨
      ∃ msg, (visualize true "png" "dot" (.ok emptyDoc) .executableNotFound).report =
        [.renderError msg]) :=
  C8_render_failure true "png" "dot" emptyDoc .executableNotFound (by decide)

/-- Claim C9: the graph description handed to the renderer is exactly
the one the save step serialized — whatever the render outcome, the
description passed to `dot.render` equals the saved one (only the
engine attribute, which is not part of the description, may differ). -/
theorem C9_description_unchanged (skip : Bool) (fmt cfg : String)
    (data : ProjectDocument) (ro : RenderOutcome) :
    ∃ d e, (visualize skip fmt cfg (.ok data) ro).savedSource = some d ∧
      (visualize skip fmt cfg (.ok data) ro).renderedWith = some (d, e) := by
  have hd := engineForRender_description (buildAll skip (projectName data) data.dependencies).2.1
    cfg (buildAll skip (projectName data) data.dependencies).1
  cases ro with
  | success =>
      exact ⟨_, _, rfl, by simp only [visualize]; rw [hd]⟩
  | executableNotFound =>
      exact ⟨_, _, rfl, by simp only [visualize]; rw [hd]⟩
  | otherFailure msg =>
      exact ⟨_, _, rfl, by simp only [visualize]; rw [hd]⟩

/-- Claim C10: a non-empty `cves` list whose first finding has no `id`
field defaults the id to the empty string, which matches no sentinel,
so the dependency gets the danger color. -/
theorem C10_missing_id_danger (dep : Dependency) (f : Finding)
    (rest : List Finding) (hc : dep.cves = f :: rest) (hid : f.id = none) :
    get_security_color dep = "#FF6347" := by
  simp [get_security_color, hc, hid]

/-- Witness for C10: one finding without an id. -/
theorem C10_missing_id_danger_witness :
    get_security_color { bareDep with cves := [{ id := none }] } = "#FF6347" :=
  C10_missing_id_danger _ { id := none } [] rfl rfl

end VisualizeDeps
